import Mathlib

/-!
Verification development for the deforestation-monitoring system
(Sentinel-1 SAR monitor for Novo Progresso).

The Node API routes (`backend-api/routes/alerts.js`, the timeseries route),
the SQL schema (`database/schema.sql`) and the seed data (`database/seed.sql`)
are embedded directly from their sources.  The Python analysis pipeline
(`backend-python`: ALT detector, score combiner, spatial classifier, alert
lifecycle manager) is not among the sources at hand; those components are
modelled from the specification and each such definition is marked
`Modelled from the spec:` in its doc comment.
-/

namespace Forest

/-! ## Alert status update route (backend-api/routes/alerts.js, PUT /api/alerts/:id/status) -/

/-- The status values accepted by the update route (alerts.js line 189,
matching the `alert_candidate.status` comment in schema.sql line 76). -/
def validStatuses : List String := ["PENDING", "VERIFIED", "FALSE_POSITIVE", "INVESTIGATING"]

/-- The fields of an `alert_candidate` row that the status route reads or writes
(timestamps are left to the database clock and omitted). -/
structure AlertRecord where
  status : String
  verificationNotes : Option String
  verifiedBy : Option String
  deriving DecidableEq

/-- Embedding of the PUT /api/alerts/:id/status handler (alerts.js lines 184-221):
the requested status is checked against `validStatuses` first (400 on failure,
before any query); otherwise the row, when present, is updated unconditionally —
the UPDATE has no guard on the current status.  The result is the HTTP status
code paired with the row state after the call (`none` = no such row). -/
def putStatus (row : Option AlertRecord) (status : String)
    (notes verifiedBy : Option String) : Nat × Option AlertRecord :=
  if status ∈ validStatuses then
    match row with
    | none => (404, none)
    | some _ =>
        (200, some { status := status, verificationNotes := notes, verifiedBy := verifiedBy })
  else
    (400, row)

/-! ## Alert listing route (backend-api/routes/alerts.js, GET /api/alerts) -/

/-- The nullable numeric columns of an `alert_candidate` row selected by the
listing query (schema.sql lines 82-89); `none` is SQL NULL. -/
structure AlertRow where
  altVvDropDb : Option ℚ
  altVhDropDb : Option ℚ
  opticalScore : Option ℚ
  combinedScore : Option ℚ
  ndviDrop : Option ℚ
  deriving DecidableEq

/-- The corresponding properties of the emitted GeoJSON feature. -/
structure AlertProps where
  altVvDropDb : ℚ
  altVhDropDb : ℚ
  opticalScore : Option ℚ
  combinedScore : Option ℚ
  ndviDrop : Option ℚ
  deriving DecidableEq

/-- Embedding of the SELECT list and row formatting of GET /api/alerts
(alerts.js lines 27-31 and 71-75): the query wraps the two radar drops in
`COALESCE(col, 0)`, so the JS layer always sees a number there; for
`optical_score`, `combined_score` and `ndvi_drop` the driver hands NULL to JS
as `null` (falsy, mapped to `null`) and any numeric value as a nonempty —
hence truthy — string, mapped through `parseFloat`. -/
def formatAlertRow (r : AlertRow) : AlertProps :=
  { altVvDropDb := r.altVvDropDb.getD 0
    altVhDropDb := r.altVhDropDb.getD 0
    opticalScore := r.opticalScore
    combinedScore := r.combinedScore
    ndviDrop := r.ndviDrop }

/-! ## Score combiner (backend-python, absent from the sources) -/

/-- Modelled from the spec: the Score Combiner (spec section 4.6).  The missing
code is `backend-python` (pipeline.py and its models).  When optical is
available, `combined_score = w1*radar + w2*optical`; when it is unavailable the
optical weight is dropped and the remaining radar weight is re-normalized by
the total remaining weight (`w1 / w1`), rather than silently zero-weighting
the missing signal. -/
def combineScore (w1 w2 radar : ℚ) : Option ℚ → ℚ
  | some o => w1 * radar + w2 * o
  | none => (w1 / w1) * radar

/-- Claim C9: PUT /api/alerts/:id/status updates the record iff the requested
status is one of PENDING, VERIFIED, FALSE_POSITIVE, INVESTIGATING; any other
value yields a 400 response with the record unchanged, and a valid status is
applied whatever the current status is (no transition guard). -/
theorem putStatus_valid_iff (row : AlertRecord) (status : String)
    (notes verifiedBy : Option String) :
    (status ∈ validStatuses →
      putStatus (some row) status notes verifiedBy =
        (200, some { status := status, verificationNotes := notes, verifiedBy := verifiedBy })) ∧
    (status ∉ validStatuses →
      putStatus (some row) status notes verifiedBy = (400, some row)) := by
  constructor
  · intro h
    simp [putStatus, h]
  · intro h
    simp [putStatus, h]

/-- Witness for C9: a VERIFIED alert is moved back to PENDING (valid status,
no transition guard), while an unknown status is rejected with 400 and the
record is left as it was. -/
theorem putStatus_valid_iff_witness :
    (putStatus (some { status := "VERIFIED", verificationNotes := none, verifiedBy := none })
        "PENDING" none none =
      (200, some { status := "PENDING", verificationNotes := none, verifiedBy := none })) ∧
    (putStatus (some { status := "VERIFIED", verificationNotes := none, verifiedBy := none })
        "DELETED" none none =
      (400, some { status := "VERIFIED", verificationNotes := none, verifiedBy := none })) :=
  ⟨(putStatus_valid_iff _ _ _ _).1 (by decide),
   (putStatus_valid_iff _ _ _ _).2 (by decide)⟩

/-- Claim C10: at GET /api/alerts a missing `alt_vv_drop_db` or
`alt_vh_drop_db` is reported as the number 0 (COALESCE), indistinguishable
from a stored zero-dB drop, while missing `optical_score`, `combined_score`
and `ndvi_drop` are reported as null. -/
theorem alerts_get_missing_fields (r : AlertRow) :
    formatAlertRow { r with altVvDropDb := none } =
      formatAlertRow { r with altVvDropDb := some 0 } ∧
    (formatAlertRow { r with altVvDropDb := none }).altVvDropDb = 0 ∧
    formatAlertRow { r with altVhDropDb := none } =
      formatAlertRow { r with altVhDropDb := some 0 } ∧
    (formatAlertRow { r with altVhDropDb := none }).altVhDropDb = 0 ∧
    (formatAlertRow { r with opticalScore := none }).opticalScore = none ∧
    (formatAlertRow { r with combinedScore := none }).combinedScore = none ∧
    (formatAlertRow { r with ndviDrop := none }).ndviDrop = none :=
  ⟨rfl, rfl, rfl, rfl, rfl, rfl, rfl⟩

/-- Claim C6: when the optical cross-check is unavailable the combined score is
exactly the radar confidence (the remaining weight re-normalizes to 1, given a
nonzero radar weight); when optical is available the combined score is the
weighted sum. -/
theorem combineScore_spec (w1 w2 radar o : ℚ) :
    (w1 ≠ 0 → combineScore w1 w2 radar none = radar) ∧
    combineScore w1 w2 radar (some o) = w1 * radar + w2 * o := by
  constructor
  · intro h
    show (w1 / w1) * radar = radar
    rw [div_self h, one_mul]
  · rfl

/-- Witness for C6: nominal weights 0.7/0.3 and radar confidence 0.9 with no
optical signal combine to exactly 0.9. -/
theorem combineScore_spec_witness :
    combineScore (7/10) (3/10) (9/10) none = 9/10 :=
  (combineScore_spec (7/10) (3/10) (9/10) 0).1 (by norm_num)

/-! ## Spatial classifier (backend-python, absent from the sources) -/

/-- The boundary types of `forest_boundaries.boundary_type` (schema.sql line 22). -/
inductive BoundaryType
  | MUNICIPALITY
  | CONSERVATION_UNIT
  | INDIGENOUS_TERRITORY
  deriving DecidableEq

/-- A `forest_boundaries` row, viewed relative to one fixed accepted candidate:
`intersects` records whether its polygon meets the candidate geometry and
`interArea` the area of that intersection (0 when disjoint).  `id` is the
SERIAL PRIMARY KEY of schema.sql line 20. -/
structure Boundary where
  id : Nat
  btype : BoundaryType
  intersects : Bool
  interArea : ℚ
  deriving DecidableEq

/-- Modelled from the spec: a boundary elevates the tier when it intersects the
candidate and is a protected type (CONSERVATION_UNIT or INDIGENOUS_TERRITORY,
spec section 4.7); MUNICIPALITY is not protected. -/
def isProtected (b : Boundary) : Bool :=
  b.intersects &&
    (b.btype == BoundaryType.CONSERVATION_UNIT || b.btype == BoundaryType.INDIGENOUS_TERRITORY)

/-- The tie-break preorder of spec section 4.7: `b` is at least as good a pick
as `c` when its intersection area is larger, or equal with an id no larger. -/
def keyLE (b c : Boundary) : Prop :=
  c.interArea < b.interArea ∨ (b.interArea = c.interArea ∧ b.id ≤ c.id)

/-- The better of two picks: larger intersection area wins, ties go to the
lower boundary id. -/
def better (b c : Boundary) : Boundary :=
  if c.interArea < b.interArea then b
  else if b.interArea < c.interArea then c
  else if b.id ≤ c.id then b else c

/-- The best pick of a list of boundaries (none when the list is empty). -/
def selectBest : List Boundary → Option Boundary
  | [] => none
  | b :: rest =>
    match selectBest rest with
    | none => some b
    | some c => some (better b c)

/-- Modelled from the spec: tier assignment of the Spatial Classifier (spec
section 4.7; the code is in the missing `backend-python` pipeline).  If any
protected boundary intersects the candidate, the tier is TIER_2 and
`boundary_id` is the intersecting protected boundary with the largest
intersection area, ties broken by lowest id; otherwise TIER_1 with no
boundary id. -/
def classify (bs : List Boundary) : String × Option Nat :=
  match selectBest (bs.filter isProtected) with
  | none => ("TIER_1", none)
  | some b => ("TIER_2", some b.id)

lemma keyLE_refl (b : Boundary) : keyLE b b := Or.inr ⟨rfl, le_refl _⟩

lemma keyLE_trans {a b c : Boundary} (h1 : keyLE a b) (h2 : keyLE b c) : keyLE a c := by
  rcases h1 with h1 | ⟨e1, i1⟩
  · rcases h2 with h2 | ⟨e2, i2⟩
    · exact Or.inl (h2.trans h1)
    · exact Or.inl (e2 ▸ h1)
  · rcases h2 with h2 | ⟨e2, i2⟩
    · exact Or.inl (by rw [e1]; exact h2)
    · exact Or.inr ⟨e1.trans e2, i1.trans i2⟩

lemma keyLE_antisymm {b c : Boundary} (h1 : keyLE b c) (h2 : keyLE c b) :
    b.interArea = c.interArea ∧ b.id = c.id := by
  rcases h1 with h1 | ⟨e1, i1⟩
  · rcases h2 with h2 | ⟨e2, i2⟩
    · exact absurd (h1.trans h2) (lt_irrefl _)
    · rw [e2] at h1
      exact absurd h1 (lt_irrefl _)
  · rcases h2 with h2 | ⟨e2, i2⟩
    · rw [e1] at h2
      exact absurd h2 (lt_irrefl _)
    · exact ⟨e1, le_antisymm i1 i2⟩

lemma better_eq_or (b c : Boundary) : better b c = b ∨ better b c = c := by
  unfold better
  split_ifs <;> simp

lemma keyLE_better_left (b c : Boundary) : keyLE (better b c) b := by
  unfold better
  split_ifs with h1 h2 h3
  · exact keyLE_refl b
  · exact Or.inl h2
  · exact keyLE_refl b
  · exact Or.inr ⟨(le_antisymm (not_lt.mp h1) (not_lt.mp h2)).symm, le_of_lt (not_le.mp h3)⟩

lemma keyLE_better_right (b c : Boundary) : keyLE (better b c) c := by
  unfold better
  split_ifs with h1 h2 h3
  · exact Or.inl h1
  · exact keyLE_refl c
  · exact Or.inr ⟨le_antisymm (not_lt.mp h1) (not_lt.mp h2), h3⟩
  · exact keyLE_refl c

lemma selectBest_eq_none {l : List Boundary} : selectBest l = none ↔ l = [] := by
  cases l with
  | nil => simp [selectBest]
  | cons x rest =>
    constructor
    · intro h
      exfalso
      cases hr : selectBest rest <;> simp [selectBest, hr] at h
    · intro h
      exact absurd h (List.cons_ne_nil x rest)

lemma selectBest_mem : ∀ {l : List Boundary} {b : Boundary}, selectBest l = some b → b ∈ l := by
  intro l
  induction l with
  | nil => intro b h; simp [selectBest] at h
  | cons x rest ih =>
    intro b h
    cases hr : selectBest rest with
    | none =>
      simp [selectBest, hr] at h
      simp [h]
    | some c =>
      simp [selectBest, hr] at h
      rcases better_eq_or x c with he | he
      · rw [he] at h
        simp [← h]
      · rw [he] at h
        exact List.mem_cons_of_mem x (h ▸ ih hr)

lemma selectBest_keyLE :
    ∀ {l : List Boundary} {b : Boundary}, selectBest l = some b → ∀ c ∈ l, keyLE b c := by
  intro l
  induction l with
  | nil => intro b h; simp [selectBest] at h
  | cons x rest ih =>
    intro b h c hc
    cases hr : selectBest rest with
    | none =>
      have hrest : rest = [] := selectBest_eq_none.mp hr
      subst hrest
      simp [selectBest] at h
      simp at hc
      rw [← h, hc]
      exact keyLE_refl _
    | some d =>
      simp [selectBest, hr] at h
      rcases List.mem_cons.mp hc with rfl | hc2
      · rw [← h]
        exact keyLE_better_left _ d
      · exact keyLE_trans (h ▸ keyLE_better_right x d) (ih hr c hc2)

lemma selectBest_perm {l l2 : List Boundary} (hp : l.Perm l2)
    (hn : (l.map Boundary.id).Nodup) : selectBest l = selectBest l2 := by
  cases h1 : selectBest l with
  | none =>
    have hl : l = [] := selectBest_eq_none.mp h1
    subst hl
    have hl2 : l2 = [] := List.Perm.eq_nil hp.symm
    subst hl2
    rfl
  | some b =>
    cases h2 : selectBest l2 with
    | none =>
      have hl2 : l2 = [] := selectBest_eq_none.mp h2
      subst hl2
      have hl : l = [] := List.Perm.eq_nil hp
      subst hl
      simp [selectBest] at h1
    | some c =>
      have hb : b ∈ l := selectBest_mem h1
      have hc : c ∈ l2 := selectBest_mem h2
      have hcl : c ∈ l := hp.mem_iff.mpr hc
      have hbl2 : b ∈ l2 := hp.mem_iff.mp hb
      have k1 : keyLE b c := selectBest_keyLE h1 c hcl
      have k2 : keyLE c b := selectBest_keyLE h2 b hbl2
      have hk := keyLE_antisymm k1 k2
      rw [List.inj_on_of_nodup_map hn hb hcl hk.2]

/-- Claim C7: for an accepted candidate, the tier is TIER_2 with `boundary_id`
the protected intersecting boundary of largest intersection area (ties to the
lowest id) exactly when some CONSERVATION_UNIT or INDIGENOUS_TERRITORY
boundary intersects the candidate; otherwise — in particular when only
MUNICIPALITY boundaries intersect — the tier is TIER_1 with no boundary id. -/
theorem classify_tier (bs : List Boundary) :
    ((∀ b ∈ bs, isProtected b = false) → classify bs = ("TIER_1", none)) ∧
    ((bs.map Boundary.id).Nodup →
      ∀ b ∈ bs, isProtected b = true →
        ∃ c ∈ bs, isProtected c = true ∧ classify bs = ("TIER_2", some c.id) ∧
          ∀ d ∈ bs, isProtected d = true → d ≠ c →
            d.interArea < c.interArea ∨ (d.interArea = c.interArea ∧ c.id < d.id)) ∧
    ((∀ b ∈ bs, b.btype = BoundaryType.MUNICIPALITY) → classify bs = ("TIER_1", none)) := by
  have tier1 : (∀ b ∈ bs, isProtected b = false) → classify bs = ("TIER_1", none) := by
    intro h
    have hf : bs.filter isProtected = [] :=
      List.filter_eq_nil_iff.mpr (fun a ha => by simp [h a ha])
    unfold classify
    rw [hf]
    rfl
  refine ⟨tier1, ?_, ?_⟩
  · intro hn b hb hpb
    have hbf : b ∈ bs.filter isProtected := List.mem_filter.mpr ⟨hb, hpb⟩
    obtain ⟨c, hc⟩ : ∃ c, selectBest (bs.filter isProtected) = some c := by
      cases hsel : selectBest (bs.filter isProtected) with
      | none =>
        rw [selectBest_eq_none.mp hsel] at hbf
        exact absurd hbf (List.not_mem_nil b)
      | some c => exact ⟨c, rfl⟩
    have hcf : c ∈ bs.filter isProtected := selectBest_mem hc
    have hcbs : c ∈ bs := (List.mem_filter.mp hcf).1
    have hcp : isProtected c = true := (List.mem_filter.mp hcf).2
    refine ⟨c, hcbs, hcp, ?_, ?_⟩
    · unfold classify
      rw [hc]
    · intro d hd hdp hdc
      have hdf : d ∈ bs.filter isProtected := List.mem_filter.mpr ⟨hd, hdp⟩
      rcases selectBest_keyLE hc d hdf with hlt | ⟨heq, hle⟩
      · exact Or.inl hlt
      · refine Or.inr ⟨heq.symm, ?_⟩
        rcases lt_or_eq_of_le hle with hlt | hid
        · exact hlt
        · exact absurd (List.inj_on_of_nodup_map hn hd hcbs hid.symm) hdc
  · intro h
    refine tier1 (fun b hb => ?_)
    simp [isProtected, h b hb]

/-- The Jamanxim conservation-unit boundary of seed.sql, intersecting the
fixed candidate with area 2, next to the municipal boundary of Novo Progresso
(a larger, non-protected intersection). -/
def boundaryCU : Boundary :=
  { id := 2, btype := BoundaryType.CONSERVATION_UNIT, intersects := true, interArea := 2 }

/-- The municipal boundary, intersecting the candidate with a larger area. -/
def boundaryMun : Boundary :=
  { id := 1, btype := BoundaryType.MUNICIPALITY, intersects := true, interArea := 50 }

/-- An indigenous-territory boundary with a smaller intersection area. -/
def boundaryTI : Boundary :=
  { id := 3, btype := BoundaryType.INDIGENOUS_TERRITORY, intersects := true, interArea := 1 }

/-- Witness for C7: among a municipal boundary (largest intersection), a
conservation unit and an indigenous territory, the candidate is emitted as
TIER_2 with `boundary_id` the best protected boundary. -/
theorem classify_tier_witness :
    ∃ c ∈ [boundaryMun, boundaryCU, boundaryTI], isProtected c = true ∧
      classify [boundaryMun, boundaryCU, boundaryTI] = ("TIER_2", some c.id) ∧
      ∀ d ∈ [boundaryMun, boundaryCU, boundaryTI], isProtected d = true → d ≠ c →
        d.interArea < c.interArea ∨ (d.interArea = c.interArea ∧ c.id < d.id) :=
  (classify_tier _).2.1 (by decide) boundaryCU (by decide) (by decide)

/-- Claim C8: tier assignment is order-independent — permuting the boundary
list (with its distinct primary-key ids) changes neither the assigned tier nor
the selected boundary id. -/
theorem classify_perm_invariant (bs bs2 : List Boundary) (hp : bs.Perm bs2)
    (hn : (bs.map Boundary.id).Nodup) : classify bs = classify bs2 := by
  have hs : List.Sublist ((bs.filter isProtected).map Boundary.id) (bs.map Boundary.id) :=
    (List.filter_sublist bs).map Boundary.id
  have hn2 : ((bs.filter isProtected).map Boundary.id).Nodup := List.Nodup.sublist hs hn
  unfold classify
  rw [selectBest_perm (hp.filter isProtected) hn2]

/-- Witness for C8: reversing the three-boundary list leaves the classification
unchanged. -/
theorem classify_perm_invariant_witness :
    classify [boundaryMun, boundaryCU, boundaryTI] =
      classify [boundaryTI, boundaryCU, boundaryMun] :=
  classify_perm_invariant _ _ (by decide) (by decide)

/-! ## Processed-image ledger and alert lifecycle (schema.sql, spec section 4.8) -/

/-- The status values listed for `processed_images.status` (schema.sql line 51
comment). -/
def processedImagesStatuses : List String := ["PENDING", "PROCESSING", "COMPLETED", "FAILED"]

/-- The column default of `processed_images.status` (schema.sql line 51:
`status VARCHAR(50) DEFAULT 'COMPLETED'`). -/
def processedImagesDefaultStatus : String := "COMPLETED"

/-- A `processed_images` row (schema.sql lines 43-56, the columns the claims
touch). -/
structure ImageRecord where
  imageId : String
  status : String
  numAlertsGenerated : Nat
  errorMessage : Option String
  deriving DecidableEq

/-- A `processed_images` row inserted without an explicit status takes the
schema's column defaults (schema.sql lines 51-53). -/
def newProcessedImage (imgId : String) : ImageRecord :=
  { imageId := imgId
    status := processedImagesDefaultStatus
    numAlertsGenerated := 0
    errorMessage := none }

/-- Modelled from the spec: the status transitions of the per-image state
machine of spec section 4.8 (the Alert Lifecycle Manager lives in the missing
`backend-python` pipeline): a run acquires a PENDING or FAILED image and moves
it to PROCESSING, then to COMPLETED on success or FAILED on unrecoverable
error. -/
inductive StatusStep : String → String → Prop
  | acquirePending : StatusStep ("PENDING") ("PROCESSING")
  | acquireFailed : StatusStep ("FAILED") ("PROCESSING")
  | complete : StatusStep ("PROCESSING") ("COMPLETED")
  | fail : StatusStep ("PROCESSING") ("FAILED")

/-- An `alert_candidate` row as authored by the pipeline (the fields claim C1
observes). -/
structure AlertEmit where
  sourceImageId : String
  confidenceScore : ℚ
  deriving DecidableEq

/-- The persistent state a pass reads and writes: the `processed_images`
ledger and the `alert_candidate` rows. -/
structure PipelineState where
  images : List ImageRecord
  alerts : List AlertEmit
  deriving DecidableEq

def lookupImage (st : PipelineState) (img : String) : Option ImageRecord :=
  st.images.find? (fun r => r.imageId == img)

/-- The alert rows attributed to one source image. -/
def alertsFor (st : PipelineState) (img : String) : List AlertEmit :=
  st.alerts.filter (fun a => a.sourceImageId == img)

/-- Modelled from the spec: one pass of the missing `backend-python` pipeline
against one source image (spec sections 4.8, 5 and 7).  A COMPLETED image is an
idempotent no-op (`ImageAlreadyProcessed`); a PROCESSING image means a
concurrent run holds it and the loser aborts without side effects
(`ImageStatusConflict`); otherwise the detected alerts and the COMPLETED
status with its `num_alerts_generated` count are committed together. -/
def runPass (detect : String → List AlertEmit) (st : PipelineState) (img : String) :
    PipelineState :=
  match lookupImage st img with
  | none => st
  | some irec =>
    if irec.status == "COMPLETED" then st
    else if irec.status == "PROCESSING" then st
    else
      let newAlerts := detect img
      { images := st.images.map (fun r =>
          if r.imageId == img then
            { r with status := "COMPLETED", numAlertsGenerated := newAlerts.length }
          else r)
        alerts := st.alerts ++ newAlerts }

/-- Claim C1: running a pass against an image whose ledger row is COMPLETED is
an exact no-op — the state is unchanged, so the alert set for that image is
the same, `num_alerts_generated` is unchanged, no alert rows are added and the
status remains COMPLETED. -/
theorem runPass_completed_noop (detect : String → List AlertEmit) (st : PipelineState)
    (img : String) (irec : ImageRecord)
    (h1 : lookupImage st img = some irec) (h2 : irec.status = "COMPLETED") :
    runPass detect st img = st ∧
    alertsFor (runPass detect st img) img = alertsFor st img ∧
    (runPass detect st img).alerts = st.alerts ∧
    (lookupImage (runPass detect st img) img).map ImageRecord.numAlertsGenerated =
      some irec.numAlertsGenerated ∧
    (lookupImage (runPass detect st img) img).map ImageRecord.status = some ("COMPLETED") := by
  have he : runPass detect st img = st := by
    unfold runPass
    rw [h1]
    simp [h2]
  refine ⟨he, by rw [he], by rw [he], by rw [he, h1]; rfl, by rw [he, h1]; simp [h2]⟩

/-- A ledger row already marked COMPLETED, with two alert rows attributed to
its image. -/
def completedImage : ImageRecord :=
  { imageId := "S1A_IW_GRDH_A", status := "COMPLETED", numAlertsGenerated := 2,
    errorMessage := none }

/-- A concrete pipeline state containing `completedImage` and its two alerts. -/
def completedState : PipelineState :=
  { images := [completedImage]
    alerts := [{ sourceImageId := "S1A_IW_GRDH_A", confidenceScore := 9/10 },
               { sourceImageId := "S1A_IW_GRDH_A", confidenceScore := 88/100 }] }

/-- A detector that would emit one more alert if it were ever consulted. -/
def demoDetect : String → List AlertEmit :=
  fun i => [{ sourceImageId := i, confidenceScore := 1/2 }]

/-- Witness for C1: resubmitting the COMPLETED image changes nothing even
though the detector would produce a new alert. -/
theorem runPass_completed_noop_witness :
    runPass demoDetect completedState ("S1A_IW_GRDH_A") = completedState ∧
    alertsFor (runPass demoDetect completedState ("S1A_IW_GRDH_A")) ("S1A_IW_GRDH_A") =
      alertsFor completedState ("S1A_IW_GRDH_A") ∧
    (runPass demoDetect completedState ("S1A_IW_GRDH_A")).alerts = completedState.alerts ∧
    (lookupImage (runPass demoDetect completedState ("S1A_IW_GRDH_A")) ("S1A_IW_GRDH_A")).map
        ImageRecord.numAlertsGenerated = some completedImage.numAlertsGenerated ∧
    (lookupImage (runPass demoDetect completedState ("S1A_IW_GRDH_A")) ("S1A_IW_GRDH_A")).map
        ImageRecord.status = some ("COMPLETED") :=
  runPass_completed_noop demoDetect completedState ("S1A_IW_GRDH_A") completedImage rfl rfl

/-- Counterexample for C2: the claim says a newly created `processed_images`
record starts at PENDING, but the schema's column default (schema.sql line 51)
makes a record inserted without an explicit status start at COMPLETED. -/
theorem new_processed_image_not_pending :
    (newProcessedImage ("S1A_IW_GRDH_B")).status = "COMPLETED" ∧
    (newProcessedImage ("S1A_IW_GRDH_B")).status ≠ "PENDING" :=
  ⟨rfl, by decide⟩

/-- Claim C2 (amended): every status named by the machine is one of PENDING,
PROCESSING, COMPLETED, FAILED; every status change follows an edge of
`PENDING → PROCESSING → COMPLETED or FAILED` with FAILED re-acquirable;
statuses reachable from an allowed status stay allowed; but a record created
without an explicit status starts at the schema default COMPLETED, not
PENDING. -/
theorem processed_image_state_machine :
    (∀ s t : String, StatusStep s t →
      s ∈ processedImagesStatuses ∧ t ∈ processedImagesStatuses) ∧
    (∀ s t : String, StatusStep s t ↔
      (((s = "PENDING" ∨ s = "FAILED") ∧ t = "PROCESSING") ∨
        (s = "PROCESSING" ∧ (t = "COMPLETED" ∨ t = "FAILED")))) ∧
    (∀ i : String, (newProcessedImage i).status = "COMPLETED" ∧
      (newProcessedImage i).status ∈ processedImagesStatuses) ∧
    (∀ s t : String, s ∈ processedImagesStatuses →
      Relation.ReflTransGen StatusStep s t → t ∈ processedImagesStatuses) := by
  have hedge : ∀ s t : String, StatusStep s t →
      s ∈ processedImagesStatuses ∧ t ∈ processedImagesStatuses := by
    intro s t h
    cases h <;> exact ⟨by decide, by decide⟩
  refine ⟨hedge, ?_, ?_, ?_⟩
  · intro s t
    constructor
    · intro h
      cases h
      · exact Or.inl ⟨Or.inl rfl, rfl⟩
      · exact Or.inl ⟨Or.inr rfl, rfl⟩
      · exact Or.inr ⟨rfl, Or.inl rfl⟩
      · exact Or.inr ⟨rfl, Or.inr rfl⟩
    · rintro (⟨hs | hs, ht⟩ | ⟨hs, ht | ht⟩) <;> subst hs <;> subst ht
      · exact StatusStep.acquirePending
      · exact StatusStep.acquireFailed
      · exact StatusStep.complete
      · exact StatusStep.fail
  · intro i
    refine ⟨rfl, ?_⟩
    show ("COMPLETED") ∈ processedImagesStatuses
    decide
  · intro s t hs h
    induction h with
    | refl => exact hs
    | tail _ hstep ih => exact (hedge _ _ hstep).2

/-- Witness for C2: PENDING reaches COMPLETED through PROCESSING, and the
reachable status is among the four allowed values. -/
theorem processed_image_state_machine_witness :
    "COMPLETED" ∈ processedImagesStatuses :=
  processed_image_state_machine.2.2.2 ("PENDING") ("COMPLETED") (by decide)
    (Relation.ReflTransGen.tail (Relation.ReflTransGen.single StatusStep.acquirePending)
      StatusStep.complete)

/-! ## Linear backscatter to decibels (timeseries profile route and spec section 4.2) -/

noncomputable section

/-- Modelled from the spec: the guarded linear-to-dB conversion of section 4.2
(`10·log10` on a positive linear mean, the −40 dB sentinel floor otherwise);
the detector applying it is in the missing `backend-python` pipeline, but the
identical guard appears in the timeseries profile route. -/
def toDb (x : ℝ) : ℝ := if 0 < x then 10 * Real.logb 10 x else -40

/-- Modelled from the spec: the drop formula exactly as section 4.2 writes it,
`drop = 10·log10(baseline mean) − 10·log10(observation mean)`. -/
def dropDbSpec (baselineMean obsMean : ℝ) : ℝ := toDb baselineMean - toDb obsMean

/-- The signed drop, observation dB minus baseline dB: a backscatter loss is a
negative value, the convention under which the stored drops of seed.sql are
negative (−2.1, −2.4, −2.3, −2.6 dB) and under which the trigger comparison
`drop ≤ threshold` against the negative thresholds can fire. -/
def dropDbSigned (baselineMean obsMean : ℝ) : ℝ := toDb obsMean - toDb baselineMean

/-- The nominal VV trigger threshold of spec section 4.2, −2.0 dB. -/
def thresholdVV : ℝ := -2

/-- One row of the `backscatter_timeseries` query of
GET /api/timeseries/:gridId/profile (the two nullable medians). -/
structure ProfileRow where
  vvMedian : Option ℝ
  vhMedian : Option ℝ

/-- One point of the emitted profile. -/
structure ProfilePoint where
  vvDb : ℝ
  vhDb : ℝ

/-- Embedding of the JS conversion of the profile route (part_004 lines
85-91): `row.vv_median > 0 ? 10 * Math.log10(row.vv_median) : -40`.  A SQL
NULL median compares false against 0 in JS, so it also lands on the −40
sentinel branch. -/
def jsMedianDb : Option ℝ → ℝ
  | none => -40
  | some x => if 0 < x then 10 * Real.logb 10 x else -40

/-- Embedding of the profile row formatting of part_004 lines 88-91. -/
def profilePoint (r : ProfileRow) : ProfilePoint :=
  { vvDb := jsMedianDb r.vvMedian, vhDb := jsMedianDb r.vhMedian }

end

/-- Claim C5: the linear-to-dB conversion of the profile route is total and
guarded — it is `10·log10 v` for a stored value `v > 0` and the −40 dB
sentinel for `v ≤ 0` or NULL, so the logarithm is never applied to a
non-positive value. -/
theorem profile_db_guarded (r : ProfileRow) :
    (∀ x : ℝ, r.vvMedian = some x → 0 < x → (profilePoint r).vvDb = 10 * Real.logb 10 x) ∧
    (∀ x : ℝ, r.vvMedian = some x → x ≤ 0 → (profilePoint r).vvDb = -40) ∧
    (r.vvMedian = none → (profilePoint r).vvDb = -40) ∧
    (∀ x : ℝ, r.vhMedian = some x → 0 < x → (profilePoint r).vhDb = 10 * Real.logb 10 x) ∧
    (∀ x : ℝ, r.vhMedian = some x → x ≤ 0 → (profilePoint r).vhDb = -40) ∧
    (r.vhMedian = none → (profilePoint r).vhDb = -40) := by
  refine ⟨?_, ?_, ?_, ?_, ?_, ?_⟩
  · intro x hx hpos
    simp [profilePoint, jsMedianDb, hx, hpos]
  · intro x hx hle
    simp [profilePoint, jsMedianDb, hx, not_lt.mpr hle]
  · intro hx
    simp [profilePoint, jsMedianDb, hx]
  · intro x hx hpos
    simp [profilePoint, jsMedianDb, hx, hpos]
  · intro x hx hle
    simp [profilePoint, jsMedianDb, hx, not_lt.mpr hle]
  · intro hx
    simp [profilePoint, jsMedianDb, hx]

/-- Witness for C5: a stored positive median converts through the logarithm,
a NULL median lands on the sentinel. -/
theorem profile_db_guarded_witness :
    (profilePoint { vvMedian := some 10, vhMedian := none }).vvDb = 10 * Real.logb 10 10 ∧
    (profilePoint { vvMedian := some 10, vhMedian := none }).vhDb = -40 :=
  ⟨(profile_db_guarded _).1 10 rfl (by norm_num),
   (profile_db_guarded _).2.2.2.2.2 rfl⟩

lemma logb_ten_six_lb : (777/1000 : ℝ) < Real.logb 10 6 := by
  rw [Real.lt_logb_iff_rpow_lt (by norm_num) (by norm_num)]
  have h : ((10 : ℝ) ^ ((777 : ℝ)/1000)) ^ (1000 : ℕ) = (10 : ℝ) ^ (777 : ℕ) := by
    rw [← Real.rpow_natCast ((10 : ℝ) ^ ((777 : ℝ)/1000)) 1000,
      ← Real.rpow_mul (by norm_num : (0 : ℝ) ≤ 10),
      show ((777 : ℝ)/1000) * (1000 : ℕ) = ((777 : ℕ) : ℝ) by norm_num,
      Real.rpow_natCast]
  have hp : ((10 : ℝ) ^ ((777 : ℝ)/1000)) ^ (1000 : ℕ) < (6 : ℝ) ^ (1000 : ℕ) := by
    rw [h]
    norm_num
  exact lt_of_pow_lt_pow_left₀ 1000 (by norm_num) hp

lemma logb_ten_six_ub : Real.logb 10 6 < 779/1000 := by
  rw [Real.logb_lt_iff_lt_rpow (by norm_num) (by norm_num)]
  have h : ((10 : ℝ) ^ ((779 : ℝ)/1000)) ^ (1000 : ℕ) = (10 : ℝ) ^ (779 : ℕ) := by
    rw [← Real.rpow_natCast ((10 : ℝ) ^ ((779 : ℝ)/1000)) 1000,
      ← Real.rpow_mul (by norm_num : (0 : ℝ) ≤ 10),
      show ((779 : ℝ)/1000) * (1000 : ℕ) = ((779 : ℕ) : ℝ) by norm_num,
      Real.rpow_natCast]
  have hp : (6 : ℝ) ^ (1000 : ℕ) < ((10 : ℝ) ^ ((779 : ℝ)/1000)) ^ (1000 : ℕ) := by
    rw [h]
    norm_num
  exact lt_of_pow_lt_pow_left₀ 1000 (Real.rpow_nonneg (by norm_num) _) hp

/-- The spec-formula drop of the scenario: baseline VV mean 0.10, new
observation VV mean 0.06, in closed form. -/
lemma dropDbSpec_scenario : dropDbSpec (1/10) (6/100) = 10 - 10 * Real.logb 10 6 := by
  unfold dropDbSpec toDb
  rw [if_pos (by norm_num : (0 : ℝ) < 1/10), if_pos (by norm_num : (0 : ℝ) < 6/100)]
  have h1 : Real.logb 10 ((1 : ℝ)/10) = -1 := by
    rw [show ((1 : ℝ)/10) = (10 : ℝ)⁻¹ by norm_num, Real.logb_inv,
      Real.logb_self_eq_one (by norm_num)]
  have h100 : Real.logb 10 (100 : ℝ) = 2 := by
    rw [show (100 : ℝ) = (10 : ℝ) ^ (2 : ℕ) by norm_num, Real.logb_pow,
      Real.logb_self_eq_one (by norm_num)]
    norm_num
  have h2 : Real.logb 10 ((6 : ℝ)/100) = Real.logb 10 6 - 2 := by
    rw [Real.logb_div (by norm_num) (by norm_num), h100]
  rw [h1, h2]
  ring

/-- Counterexample for C3: with the drop formula exactly as the spec writes it
(baseline dB minus observation dB), the scenario value is ≈ +2.22 dB and the
claimed trigger condition `drop_vv_db ≤ −2.0` does not hold. -/
theorem scenario_trigger_counterexample :
    ¬ dropDbSpec (1/10) (6/100) ≤ thresholdVV := by
  rw [dropDbSpec_scenario]
  unfold thresholdVV
  have h := logb_ten_six_ub
  intro hle
  linarith

/-- Claim C3 (amended): the scenario drop computed by the spec formula is
≈ 2.22 dB (strictly between 2.21 and 2.23), and the cell triggers on VV in
the signed convention actually stored and compared — observation dB minus
baseline dB ≈ −2.22 satisfies `drop ≤ −2.0`. -/
theorem scenario_drop_and_trigger :
    (221/100 : ℝ) < dropDbSpec (1/10) (6/100) ∧
    dropDbSpec (1/10) (6/100) < 223/100 ∧
    dropDbSigned (1/10) (6/100) ≤ thresholdVV := by
  have hub := logb_ten_six_ub
  have hlb := logb_ten_six_lb
  have he := dropDbSpec_scenario
  have he2 : dropDbSigned (1/10) (6/100) = -dropDbSpec (1/10) (6/100) := by
    unfold dropDbSigned dropDbSpec
    ring
  refine ⟨by rw [he]; linarith, by rw [he]; linarith, ?_⟩
  rw [he2, he]
  unfold thresholdVV
  linarith

/-- Counterexample for C4: with the spec formula and a fixed baseline of 0.10,
the lower new-observation mean 0.06 gives a strictly larger drop than the
higher mean 0.10, refuting `drop(m1) ≤ drop(m2)` for `m1 < m2`. -/
theorem drop_monotone_counterexample :
    (6/100 : ℝ) < 1/10 ∧
    ¬ dropDbSpec (1/10) (6/100) ≤ dropDbSpec (1/10) (1/10) := by
  refine ⟨by norm_num, ?_⟩
  have h0 : dropDbSpec (1/10) (1/10) = 0 := sub_self _
  rw [h0, dropDbSpec_scenario]
  have h := logb_ten_six_ub
  intro hle
  linarith

/-- Claim C4 (amended): for a fixed baseline and positive linear means
`0 < m1 < m2`, the spec-formula drop is antitone — `drop(m2) ≤ drop(m1)` —
equivalently the signed drop (observation dB minus baseline dB) is monotone,
`dropSigned(m1) ≤ dropSigned(m2)`.  (Positivity is needed: the −40 dB
sentinel is not monotone across the sign boundary.) -/
theorem drop_monotone_amended (b m1 m2 : ℝ) (h0 : 0 < m1) (h12 : m1 < m2) :
    dropDbSpec b m2 ≤ dropDbSpec b m1 ∧ dropDbSigned b m1 ≤ dropDbSigned b m2 := by
  have hm : toDb m1 ≤ toDb m2 := by
    unfold toDb
    rw [if_pos h0, if_pos (h0.trans h12)]
    have := Real.logb_le_logb_of_le (by norm_num : (1 : ℝ) < 10) h0 h12.le
    linarith
  constructor
  · unfold dropDbSpec
    linarith
  · unfold dropDbSigned
    linarith

/-- Witness for C4: baseline 1, means 1 < 2. -/
theorem drop_monotone_amended_witness :
    dropDbSpec 1 2 ≤ dropDbSpec 1 1 ∧ dropDbSigned 1 1 ≤ dropDbSigned 1 2 :=
  drop_monotone_amended 1 1 2 (by norm_num) (by norm_num)

end Forest
